import Mathlib

/-!
Verification development for the SSRF canary service (`app.py`).

The definitions below are a shallow embedding of the Python source:
pure helpers become Lean functions, the Flask request handler `canary`
becomes a pure function from an explicit environment (DNS / webhook /
SMTP outcomes), the token store, the rate-limiter state and the raw
request to the produced event, alert payload and HTTP response.
Machine time (`time.time()` / `datetime.utcnow()`) is modelled as `ℤ`.
-/

namespace SSRFCanary

/-! ### Python string helpers -/

/-- Python `str.strip()` whitespace set (ASCII part): space, tab, LF, CR, VT, FF. -/
def pyWSChar (c : Char) : Bool :=
  c = ' ' ∨ c = Char.ofNat 9 ∨ c = Char.ofNat 10 ∨ c = Char.ofNat 13 ∨
  c = Char.ofNat 11 ∨ c = Char.ofNat 12

/-- Python `str.strip()`: drop leading and trailing whitespace. -/
def pyStrip (s : String) : String :=
  String.mk (((s.data.dropWhile pyWSChar).reverse.dropWhile pyWSChar).reverse)

/-- ASCII lowercase of one character (header names are ASCII). -/
def lowerChar (c : Char) : Char :=
  if 'A' ≤ c ∧ c ≤ 'Z' then Char.ofNat (c.toNat + 32) else c

/-- ASCII lowercase of a string. -/
def lowerStr (s : String) : String := String.mk (s.data.map lowerChar)

/-- Python `str.split(sep)` for a one-character separator, on char lists:
always at least one (possibly empty) piece. -/
def splitOnChar (sep : Char) : List Char → List (List Char)
  | [] => [[]]
  | c :: rest =>
    if c = sep then [] :: splitOnChar sep rest
    else
      match splitOnChar sep rest with
      | [] => [[c]]
      | g :: gs => (c :: g) :: gs

/-- Werkzeug `Headers.get`: first header whose name matches case-insensitively. -/
def getHeader (hs : List (String × String)) (name : String) : Option String :=
  (hs.find? (fun kv => lowerStr kv.fst = lowerStr name)).map (·.snd)

/-- One step of building a Python `dict` from key/value pairs (later value wins,
insertion order of the first occurrence of each key is kept). -/
def dictUpd (acc : List (String × String)) (kv : String × String) :
    List (String × String) :=
  if acc.any (fun p => p.fst = kv.fst) then
    acc.map (fun p => if p.fst = kv.fst then (p.fst, kv.snd) else p)
  else acc ++ [kv]

/-- Python `dict(request.headers)`: duplicate header names collapse, last wins. -/
def pyDict (l : List (String × String)) : List (String × String) :=
  l.foldl dictUpd []

/-! ### `ipaddress` module: IPv4 / IPv6 parsing (CPython semantics) -/

/-- `IPv4Address._parse_octet`: ASCII digits only, at most 3 of them,
value at most 255, no leading zero. -/
def parseOctet (cs : List Char) : Option Nat :=
  if cs.isEmpty then none
  else if ¬ cs.all Char.isDigit then none
  else if 3 < cs.length then none
  else
    let v := cs.foldl (fun a c => a * 10 + (c.toNat - 48)) 0
    if 255 < v then none
    else if cs.length ≠ 1 ∧ cs.headD 'x' = '0' then none
    else some v

/-- `IPv4Address` from the characters of a dotted-quad string, as the 32-bit
integer value. -/
def parseIPv4chars (cs : List Char) : Option Nat :=
  if cs.contains '/' then none
  else
    match (splitOnChar '.' cs).mapM parseOctet with
    | some [a, b, c, d] => some (a * 16777216 + b * 65536 + c * 256 + d)
    | _ => none

/-- `IPv4Address` from a dotted-quad string. -/
def parseIPv4 (s : String) : Option Nat := parseIPv4chars s.data

def isHexDig (c : Char) : Bool :=
  c.isDigit ∨ ('a' ≤ c ∧ c ≤ 'f') ∨ ('A' ≤ c ∧ c ≤ 'F')

def hexVal (c : Char) : Nat :=
  if c.isDigit then c.toNat - 48
  else if 'a' ≤ c then c.toNat - 87
  else c.toNat - 55

/-- `IPv6Address._parse_hextet`: hex digits only, at most 4 of them. -/
def parseHextet (cs : List Char) : Option Nat :=
  if cs.isEmpty then none
  else if ¬ cs.all isHexDig then none
  else if 4 < cs.length then none
  else some (cs.foldl (fun a c => a * 16 + hexVal c) 0)

def hexChar (n : Nat) : Char :=
  if n < 10 then Char.ofNat (48 + n) else Char.ofNat (87 + n)

/-- Python `'%x' % n` for `n < 2^16`, as a char list. -/
def natToHex (n : Nat) : List Char :=
  if n = 0 then ['0']
  else (((List.range 4).reverse.map
    (fun i => n / 16 ^ i % 16)).dropWhile (· = 0)).map hexChar

/-- `IPv6Address._ip_int_from_string` (scope id already split off):
the 128-bit integer value. -/
def parseIPv6core (ipStr : List Char) : Option Nat :=
  let parts0 := splitOnChar ':' ipStr
  if parts0.length < 3 then none
  else
    let withV4 : Option (List (List Char)) :=
      if (parts0.getLastD []).contains '.' then
        match parseIPv4chars (parts0.getLastD []) with
        | none => none
        | some v4 =>
            some (parts0.dropLast ++ [natToHex (v4 / 65536), natToHex (v4 % 65536)])
      else some parts0
    match withV4 with
    | none => none
    | some parts =>
      if 9 < parts.length then none
      else
        let mids := (List.range parts.length).filter
          (fun i => 0 < i ∧ i + 1 < parts.length ∧ (parts.getD i ['x']).isEmpty)
        match mids with
        | [] =>
            if parts.length ≠ 8 then none
            else if (parts.headD []).isEmpty ∨ (parts.getLastD []).isEmpty then none
            else
              match parts.mapM parseHextet with
              | none => none
              | some hs => some (hs.foldl (fun a h => a * 65536 + h) 0)
        | [skip] =>
            let headEmpty := (parts.headD ['x']).isEmpty
            let lastEmpty := (parts.getLastD ['x']).isEmpty
            let hi := if headEmpty then skip - 1 else skip
            if headEmpty ∧ hi ≠ 0 then none
            else
              let lo0 := parts.length - skip - 1
              let lo := if lastEmpty then lo0 - 1 else lo0
              if lastEmpty ∧ lo ≠ 0 then none
              else if 8 ≤ hi + lo then none
              else
                let skipped := 8 - (hi + lo)
                match (parts.take hi).mapM parseHextet,
                      (parts.drop (parts.length - lo)).mapM parseHextet with
                | some his, some los =>
                    some (((his ++ List.replicate skipped 0) ++ los).foldl
                      (fun a h => a * 65536 + h) 0)
                | _, _ => none
        | _ => none

/-- `IPv6Address` from a string: reject `/`, split off a scope id at the
first `%` (the scope must be non-empty and contain no further `%`). -/
def parseIPv6 (s : String) : Option Nat :=
  if s.data.contains '/' then none
  else
    match splitOnChar '%' s.data with
    | [ip] => parseIPv6core ip
    | [ip, scope] => if scope.isEmpty then none else parseIPv6core ip
    | _ => none

/-- A parsed IP address: version tag plus integer value. -/
inductive IPAddr where
  | v4 (n : Nat)
  | v6 (n : Nat)
deriving DecidableEq, Repr

/-- `ipaddress.ip_address`: try IPv4 first, then IPv6; `none` models the
`ValueError` raised for unparseable input. -/
def ip_address (s : String) : Option IPAddr :=
  match parseIPv4 s with
  | some n => some (.v4 n)
  | none =>
    match parseIPv6 s with
    | some n => some (.v6 n)
    | none => none

/-- An IPv4 network: network address integer and prefix length. -/
structure IPv4Net where
  netAddr : Nat
  prefixLen : Nat
deriving DecidableEq, Repr

/-- `PRIV_RANGES` from the source: 10/8, 172.16/12, 192.168/16, 127/8, 169.254/16. -/
def PRIV_RANGES : List IPv4Net :=
  [⟨0x0A000000, 8⟩, ⟨0xAC100000, 12⟩, ⟨0xC0A80000, 16⟩,
   ⟨0x7F000000, 8⟩, ⟨0xA9FE0000, 16⟩]

/-- `ip in net` for an `IPv4Network`: always false when the versions differ,
otherwise equality of the masked network bits. -/
def memNet (ip : IPAddr) (net : IPv4Net) : Bool :=
  match ip with
  | .v4 n => n / 2 ^ (32 - net.prefixLen) = net.netAddr / 2 ^ (32 - net.prefixLen)
  | .v6 _ => false

/-- `METADATA_IPS` from the source. -/
def METADATA_IPS : List String :=
  ["169.254.169.254", "169.254.170.2", "100.100.100.200"]

/-- Membership in the `METADATA_IPS` set: exact string equality against one
of its three elements. -/
def inMetadataIPs (s : String) : Bool :=
  METADATA_IPS.any (fun m => s = m)

/-- `is_private_ip_str` from the source: parse, return false on failure,
otherwise test membership in each private range. -/
def is_private_ip_str (s : String) : Bool :=
  match ip_address s with
  | none => false
  | some ip => PRIV_RANGES.any (fun net => memNet ip net)

/-- The check the handler applies to the derived remote address
(line 244): private range membership or exact metadata-set match. -/
def addrSuspicious (s : String) : Bool :=
  is_private_ip_str s || inMetadataIPs s

/-! ### `bytes.decode('utf-8', 'replace')` -/

/-- U+FFFD, the replacement character. -/
def replChar : Char := Char.ofNat 0xFFFD

/-- A UTF-8 continuation byte. -/
def contB (b : Nat) : Bool := 0x80 ≤ b ∧ b ≤ 0xBF

/-- One decoding step on lead byte `b` followed by `rest`: the produced
character (a decoded scalar or U+FFFD) and how many bytes of `rest` were
consumed beyond the lead byte (`rest.length` at a truncated tail). -/
def utf8Step (b : Nat) (rest : List Nat) : Char × Nat :=
  if b < 0x80 then (Char.ofNat b, 0)
  else if b < 0xC2 then (replChar, 0)
  else if b ≤ 0xDF then
    match rest with
    | [] => (replChar, 0)
    | b1 :: _ =>
      if contB b1 then (Char.ofNat ((b - 0xC0) * 64 + (b1 - 0x80)), 1)
      else (replChar, 0)
  else if b ≤ 0xEF then
    match rest with
    | [] => (replChar, 0)
    | b1 :: rest1 =>
      if (if b = 0xE0 then decide (0xA0 ≤ b1 ∧ b1 ≤ 0xBF)
          else if b = 0xED then decide (0x80 ≤ b1 ∧ b1 ≤ 0x9F)
          else contB b1) then
        match rest1 with
        | [] => (replChar, 1)
        | b2 :: _ =>
          if contB b2 then
            (Char.ofNat ((b - 0xE0) * 4096 + (b1 - 0x80) * 64 + (b2 - 0x80)), 2)
          else (replChar, 1)
      else (replChar, 0)
  else if b ≤ 0xF4 then
    match rest with
    | [] => (replChar, 0)
    | b1 :: rest1 =>
      if (if b = 0xF0 then decide (0x90 ≤ b1 ∧ b1 ≤ 0xBF)
          else if b = 0xF4 then decide (0x80 ≤ b1 ∧ b1 ≤ 0x8F)
          else contB b1) then
        match rest1 with
        | [] => (replChar, 1)
        | b2 :: rest2 =>
          if contB b2 then
            match rest2 with
            | [] => (replChar, 2)
            | b3 :: _ =>
              if contB b3 then
                (Char.ofNat ((b - 0xF0) * 262144 + (b1 - 0x80) * 4096 +
                  (b2 - 0x80) * 64 + (b3 - 0x80)), 3)
              else (replChar, 2)
          else (replChar, 1)
      else (replChar, 0)
  else (replChar, 0)

/-- Fuel-bounded decoding loop: each step consumes the lead byte plus the
continuation bytes `utf8Step` reports, so fuel equal to the input length is
always sufficient. -/
def utf8Go : Nat → List Nat → List Char
  | _, [] => []
  | 0, _ :: _ => []
  | fuel + 1, b :: rest =>
    (utf8Step b rest).fst :: utf8Go fuel (rest.drop (utf8Step b rest).snd)

/-- CPython UTF-8 decoding with the `replace` error handler: each maximal
valid prefix of an ill-formed sequence is replaced by one U+FFFD and decoding
resumes at the offending byte; never fails. -/
def utf8DecodeReplace (l : List Nat) : List Char := utf8Go l.length l

/-! ### Rate limiter -/

/-- `RATE_LIMIT_MAX` default from the source. -/
def RATE_LIMIT_MAX : Nat := 20

/-- `RATE_LIMIT_WINDOW` default from the source, in seconds. -/
def RATE_LIMIT_WINDOW : ℤ := 60

/-- `record_and_check_rate` acting on one key's timestamp sequence: trim the
prefix of timestamps older than `now - RATE_LIMIT_WINDOW`, append `now`,
return the new sequence and whether its length is within the limit. -/
def record_and_check_rate (arr : List ℤ) (now : ℤ) : List ℤ × Bool :=
  let windowStart := now - RATE_LIMIT_WINDOW
  let arr1 := arr.dropWhile (fun t => decide (t < windowStart))
  let arr2 := arr1 ++ [now]
  (arr2, decide (arr2.length ≤ RATE_LIMIT_MAX))

/-- Repeated `record_and_check_rate` calls on one key, starting from a key
absent from `rate_counters`: final sequence and the list of results. -/
def runRate (times : List ℤ) : List ℤ × List Bool :=
  times.foldl (fun acc now =>
    let r := record_and_check_rate acc.fst now
    (r.fst, acc.snd ++ [r.snd])) ([], [])

/-! ### Environment for the effectful sub-steps -/

/-- Python truthiness of an optional string. -/
def truthy : Option String → Bool
  | none => false
  | some s => ¬ s.isEmpty

/-- Outcomes of the process environment and of the external effects:
configuration variables, the result of `socket.gethostbyaddr` per address
(`Except`: exception or resolved hostname), the result of `requests.post`
(exception or HTTP status code), the result of the SMTP session, and the
wall-clock value used for `datetime.utcnow()`. -/
structure Env where
  dns : String → Except Unit String
  webhookUrl : Option String
  webhookPost : Except Unit Nat
  alertEmail : Option String
  smtpHost : Option String
  smtpSend : Except Unit Unit
  utcNow : ℤ

/-- `enrich_remote_host`: `None` for a falsy input, the resolved hostname on
success, `None` on any resolution failure. -/
def enrich_remote_host (env : Env) (ip : Option String) : Option String :=
  match ip with
  | none => none
  | some s =>
    if s.isEmpty then none
    else
      match env.dns s with
      | .ok h => some h
      | .error _ => none

/-! ### Record types for the handler -/

/-- A row of the external token store, as the handler reads it. -/
structure TokenRec where
  token : String
  owner : Option String
  active : Bool
  expiresAt : Option ℤ
deriving DecidableEq, Repr

/-- The inbound request as the handler consumes it: method, `request.path`,
`request.full_path`, query args, header list (in wire order, possibly with
duplicates), raw body bytes, and the transport peer `request.remote_addr`. -/
structure RequestData where
  method : String
  path : String
  fullPath : String
  args : List (String × String)
  headers : List (String × String)
  body : List Nat
  peer : Option String
deriving DecidableEq, Repr

/-- The `raw` snapshot serialized into the Event. -/
structure RawRec where
  method : String
  path : String
  args : List (String × String)
  headers : List (String × String)
  bodyPreview : String
  remoteAddr : Option String
  timestamp : ℤ
deriving DecidableEq, Repr

/-- The persisted Event row. -/
structure EventRec where
  token : String
  timestamp : ℤ
  method : String
  path : String
  headers : List (String × String)
  bodyPreview : String
  remoteAddr : Option String
  remoteHost : Option String
  suspicious : Bool
  raw : RawRec
deriving DecidableEq, Repr

/-- The alert payload handed to `alert_async`. -/
structure Payload where
  token : String
  tokenExists : Bool
  tokenOwner : Option String
  timestamp : ℤ
  method : String
  path : String
  remoteAddr : Option String
  remoteHost : Option String
  suspicious : Bool
  headers : List (String × String)
  bodyPreview : String
  rateOk : Bool
deriving DecidableEq, Repr

/-- `send_webhook`: false when no webhook is configured, false on a raised
exception, otherwise whether the status code is 2xx. The payload itself does
not influence the outcome. -/
def send_webhook (env : Env) (_payload : Payload) : Bool :=
  if ¬ truthy env.webhookUrl then false
  else
    match env.webhookPost with
    | .error _ => false
    | .ok code => decide (200 ≤ code) && decide (code < 300)

/-- `send_email`: false when no SMTP host or no recipient is configured,
false on any SMTP exception, true when the session completes.  The message
subject and content do not influence the outcome and are not modelled. -/
def send_email (env : Env) (toAddr : Option String) : Bool :=
  if ¬ truthy env.smtpHost ∨ ¬ truthy toAddr then false
  else
    match env.smtpSend with
    | .error _ => false
    | .ok _ => true

/-- The body of `alert_async`'s worker thread: attempt the webhook, then —
independently of the webhook outcome — attempt the email when `ALERT_EMAIL`
is configured.  Returns (webhook result, email result if attempted). -/
def alert_worker (env : Env) (p : Payload) : Bool × Option Bool :=
  let w := send_webhook env p
  let e := if truthy env.alertEmail then some (send_email env env.alertEmail)
           else none
  (w, e)

/-! ### The `canary` request handler -/

/-- Lines 246-248: the hostname-or-address portion of the Host header —
everything before the first `:` — or `""` for a missing/empty header. -/
def hostPortion (hostHdr : String) : String :=
  if hostHdr.isEmpty then "" else String.mk ((splitOnChar ':' hostHdr.data).headD [])

/-- The first comma-separated entry of an `X-Forwarded-For` value, stripped
of surrounding whitespace (`xff.split(',')[0].strip()`). -/
def xffFirst (s : String) : String :=
  pyStrip (String.mk ((splitOnChar ',' s.data).headD []))

/-- Address derivation (lines 236-241): the first comma-separated entry of
`X-Forwarded-For`, stripped, when the header is present and that entry is
non-empty; otherwise the transport peer. -/
def deriveRemoteAddr (xff : Option String) (peer : Option String) :
    Option String :=
  let fromXff : Option String :=
    match xff with
    | some s => if s.isEmpty then none else some (xffFirst s)
    | none => none
  match fromXff with
  | some a => if a.isEmpty then peer else some a
  | none => peer

/-- Everything the handler produces for one hit. -/
structure CanaryResult where
  rateState : List ℤ
  rateOk : Bool
  event : EventRec
  payload : Payload
  alertOutcome : Bool × Option Bool
  response : String × Nat
deriving Repr

/-- The body of the `/c/<token>` view function, for one request: rate-limit
check, token lookup, body capture, address derivation, classification,
enrichment, Event construction, payload construction, alert fan-out, and the
fixed response. -/
def canary (env : Env) (tokens : List TokenRec) (rateArr : List ℤ)
    (now : ℤ) (tok : String) (req : RequestData) : CanaryResult :=
  let rr := record_and_check_rate rateArr now
  let okRate := rr.snd
  let t := tokens.find? (fun r => r.token = tok)
  let bodyB := req.body.take 4096
  let previewChars := if bodyB.isEmpty then [] else utf8DecodeReplace bodyB
  let xff := getHeader req.headers "X-Forwarded-For"
  let remoteAddr := deriveRemoteAddr xff req.peer
  let susp1 :=
    match remoteAddr with
    | some a => addrSuspicious a
    | none => false
  let hostPart := hostPortion ((getHeader req.headers "Host").getD "")
  let susp := susp1 || (¬ hostPart.isEmpty && is_private_ip_str hostPart)
  let remoteHost := if truthy remoteAddr then enrich_remote_host env remoteAddr
                    else none
  let ev : EventRec :=
    { token := tok
      timestamp := env.utcNow
      method := req.method
      path := req.fullPath
      headers := pyDict req.headers
      bodyPreview := String.mk (previewChars.take 2000)
      remoteAddr := remoteAddr
      remoteHost := remoteHost
      suspicious := susp || !okRate
      raw :=
        { method := req.method
          path := req.path
          args := req.args
          headers := pyDict req.headers
          bodyPreview := String.mk previewChars
          remoteAddr := remoteAddr
          timestamp := env.utcNow } }
  let payload : Payload :=
    { token := tok
      tokenExists := t.isSome
      tokenOwner := match t with | some r => r.owner | none => none
      timestamp := ev.timestamp
      method := ev.method
      path := ev.path
      remoteAddr := ev.remoteAddr
      remoteHost := ev.remoteHost
      suspicious := ev.suspicious
      headers := ev.headers
      bodyPreview := ev.bodyPreview
      rateOk := okRate }
  { rateState := rr.fst
    rateOk := okRate
    event := ev
    payload := payload
    alertOutcome := alert_worker env payload
    response := ("OK", 200) }

/-- The methods listed in the route decorator for `/c/<token>`. -/
def canaryMethods : List String :=
  ["GET", "POST", "PUT", "PATCH", "DELETE", "HEAD", "OPTIONS"]

/-- Flask dispatch for `/c/<token>`: a request whose method is in the route's
method list runs the view and persists its Event; any other method is
rejected by the framework with 405 and the view never runs. -/
def dispatchCanary (env : Env) (tokens : List TokenRec)
    (events : List EventRec) (rateArr : List ℤ) (now : ℤ) (tok : String)
    (req : RequestData) : Nat × List EventRec × Option CanaryResult :=
  if canaryMethods.contains req.method then
    let r := canary env tokens rateArr now tok req
    (200, events ++ [r.event], some r)
  else (405, events, none)

/-- A sequence of hits on one token: fold the handler over the hit times,
threading the rate state and accumulating the persisted Events. -/
def runCanary (env : Env) (tokens : List TokenRec) (tok : String)
    (req : RequestData) (times : List ℤ) : List ℤ × List EventRec :=
  times.foldl (fun acc now =>
    let r := canary env tokens acc.fst now tok req
    (r.rateState, acc.snd ++ [r.event])) ([], [])

/-! ### Shared concrete fixtures -/

/-- An environment in which every external effect fails and nothing is
configured. -/
def env0 : Env :=
  { dns := fun _ => .error ()
    webhookUrl := none
    webhookPost := .error ()
    alertEmail := none
    smtpHost := none
    smtpSend := .error ()
    utcNow := 0 }

/-- A plain GET request from the public address 8.8.8.8 with no headers. -/
def req0 : RequestData :=
  { method := "GET"
    path := "/c/tk"
    fullPath := "/c/tk?"
    args := []
    headers := []
    body := []
    peer := some "8.8.8.8" }

/-! ### Projection lemmas for the handler (all definitional) -/

theorem canary_response (env : Env) (tokens : List TokenRec) (rateArr : List ℤ)
    (now : ℤ) (tok : String) (req : RequestData) :
    (canary env tokens rateArr now tok req).response = ("OK", 200) := rfl

theorem canary_rateOk (env : Env) (tokens : List TokenRec) (rateArr : List ℤ)
    (now : ℤ) (tok : String) (req : RequestData) :
    (canary env tokens rateArr now tok req).rateOk
      = (record_and_check_rate rateArr now).snd := rfl

theorem canary_event_suspicious (env : Env) (tokens : List TokenRec)
    (rateArr : List ℤ) (now : ℤ) (tok : String) (req : RequestData) :
    (canary env tokens rateArr now tok req).event.suspicious
      = (((match deriveRemoteAddr (getHeader req.headers "X-Forwarded-For") req.peer with
           | some a => addrSuspicious a
           | none => false)
          || (¬ (hostPortion ((getHeader req.headers "Host").getD "")).isEmpty
              && is_private_ip_str (hostPortion ((getHeader req.headers "Host").getD ""))))
         || !(record_and_check_rate rateArr now).snd) := rfl

theorem canary_event_bodyPreview (env : Env) (tokens : List TokenRec)
    (rateArr : List ℤ) (now : ℤ) (tok : String) (req : RequestData) :
    (canary env tokens rateArr now tok req).event.bodyPreview
      = String.mk ((if (req.body.take 4096).isEmpty then []
                    else utf8DecodeReplace (req.body.take 4096)).take 2000) := rfl

theorem canary_event_remoteAddr (env : Env) (tokens : List TokenRec)
    (rateArr : List ℤ) (now : ℤ) (tok : String) (req : RequestData) :
    (canary env tokens rateArr now tok req).event.remoteAddr
      = deriveRemoteAddr (getHeader req.headers "X-Forwarded-For") req.peer := rfl

theorem canary_payload_tokenExists (env : Env) (tokens : List TokenRec)
    (rateArr : List ℤ) (now : ℤ) (tok : String) (req : RequestData) :
    (canary env tokens rateArr now tok req).payload.tokenExists
      = (tokens.find? (fun r => r.token = tok)).isSome := rfl

theorem canary_payload_tokenOwner (env : Env) (tokens : List TokenRec)
    (rateArr : List ℤ) (now : ℤ) (tok : String) (req : RequestData) :
    (canary env tokens rateArr now tok req).payload.tokenOwner
      = (match tokens.find? (fun r => r.token = tok) with
         | some r => r.owner
         | none => none) := rfl

/-! ### Helper lemmas -/

theorem mem_metadata_iff (s : String) :
    inMetadataIPs s = true ↔
      (s = "169.254.169.254" ∨ s = "169.254.170.2" ∨ s = "100.100.100.200") := by
  simp [inMetadataIPs, METADATA_IPS]

/-- In the `v4` case, membership in a concrete private range is an interval
condition on the address value. -/
theorem priv_ranges_of_interval (n : Nat)
    (h : (0x0A000000 ≤ n ∧ n < 0x0B000000) ∨ (0xAC100000 ≤ n ∧ n < 0xAC200000) ∨
         (0xC0A80000 ≤ n ∧ n < 0xC0A90000) ∨ (0x7F000000 ≤ n ∧ n < 0x80000000) ∨
         (0xA9FE0000 ≤ n ∧ n < 0xA9FF0000)) :
    PRIV_RANGES.any (fun net => memNet (.v4 n) net) = true := by
  simp only [PRIV_RANGES, List.any_cons, List.any_nil, memNet, Bool.or_eq_true,
    decide_eq_true_eq, Bool.or_false]
  rcases h with h | h | h | h | h
  · exact Or.inl (by omega)
  · exact Or.inr (Or.inl (by omega))
  · exact Or.inr (Or.inr (Or.inl (by omega)))
  · exact Or.inr (Or.inr (Or.inr (Or.inl (by omega))))
  · exact Or.inr (Or.inr (Or.inr (Or.inr (by omega))))

theorem is_private_of_unparseable (s : String) (h : ip_address s = none) :
    is_private_ip_str s = false := by
  unfold is_private_ip_str
  rw [h]

/-! ### Claims -/

/-- C1: the address classifier is pure and total: every address string whose
parsed IPv4 value lies in 10.0.0.0/8, 172.16.0.0/12, 192.168.0.0/16,
127.0.0.0/8 or 169.254.0.0/16, and each of the three literal metadata
addresses, is classified suspicious; the public address 8.8.8.8 is not; and
unparseable input yields `false` rather than an error. -/
theorem C1_classifier_correct :
    (∀ s n, ip_address s = some (.v4 n) →
        (0x0A000000 ≤ n ∧ n < 0x0B000000) ∨ (0xAC100000 ≤ n ∧ n < 0xAC200000) ∨
        (0xC0A80000 ≤ n ∧ n < 0xC0A90000) ∨ (0x7F000000 ≤ n ∧ n < 0x80000000) ∨
        (0xA9FE0000 ≤ n ∧ n < 0xA9FF0000) →
        addrSuspicious s = true)
    ∧ addrSuspicious "169.254.169.254" = true
    ∧ addrSuspicious "169.254.170.2" = true
    ∧ addrSuspicious "100.100.100.200" = true
    ∧ addrSuspicious "8.8.8.8" = false
    ∧ (∀ s, ip_address s = none → addrSuspicious s = false) := by
  refine ⟨?_, by decide, by decide, by decide, by decide, ?_⟩
  · intro s n hparse hrange
    have hpriv : is_private_ip_str s = true := by
      unfold is_private_ip_str
      rw [hparse]
      exact priv_ranges_of_interval n hrange
    simp [addrSuspicious, hpriv]
  · intro s hparse
    have hpriv := is_private_of_unparseable s hparse
    have hmeta : inMetadataIPs s = false := by
      rcases hc : inMetadataIPs s with _ | _
      · rfl
      · exfalso
        rcases (mem_metadata_iff s).mp hc with rfl | rfl | rfl <;>
          exact absurd hparse (by decide)
    simp [addrSuspicious, hpriv, hmeta]

/-- C1 witness: 10.1.2.3 parses into 10.0.0.0/8 and is classified suspicious. -/
theorem C1_witness :
    addrSuspicious "10.1.2.3" = true :=
  C1_classifier_correct.1 "10.1.2.3" 167838211 (by decide) (Or.inl (by decide))

/-- C2 counterexample: 100.100.100.200 is in the metadata set, yet a request
whose Host header carries it (with a public client address) is recorded with
`suspicious = false` — the handler applies only the private-range check to
the Host header, not the metadata-set match. -/
theorem C2_counterexample :
    inMetadataIPs "100.100.100.200" = true ∧
    (canary env0 [] [] 0 "tk"
      { req0 with headers := [("Host", "100.100.100.200")] }).event.suspicious
      = false := by
  constructor
  · decide
  · decide

/-- C2 (amended): the Host header's hostname-or-address portion (anything
before the first colon) is checked with the private-range check only; a Host
header whose portion is a private-range address makes the recorded Event
suspicious (the metadata-set exact match is applied only to the remote
address, and of the metadata set only the two link-local members trigger via
the Host header). -/
theorem C2_host_private_check :
    (∀ env tokens rateArr now tok req h,
        getHeader req.headers "Host" = some h →
        is_private_ip_str (hostPortion h) = true →
        (canary env tokens rateArr now tok req).event.suspicious = true)
    ∧ (canary env0 [] [] 0 "tk"
        { req0 with headers := [("Host", "169.254.169.254:8080")] }).event.suspicious
        = true
    ∧ (canary env0 [] [] 0 "tk"
        { req0 with headers := [("Host", "169.254.170.2")] }).event.suspicious
        = true := by
  refine ⟨?_, by decide, by decide⟩
  intro env tokens rateArr now tok req h hH hPriv
  rw [canary_event_suspicious, hH]
  have hne : (hostPortion h).isEmpty = false := by
    rcases he : (hostPortion h).isEmpty with _ | _
    · rfl
    · exfalso
      have h0 : hostPortion h = "" := (String.isEmpty_iff _).mp he
      rw [h0] at hPriv
      exact absurd hPriv (by decide)
  have hgetD : (some h).getD "" = h := rfl
  rw [hgetD, hne]
  simp [hPriv]

/-- C2 witness: a Host header `10.0.0.1:443` (private address, port suffix)
makes the Event suspicious. -/
theorem C2_witness :
    getHeader [("Host", "10.0.0.1:443")] "Host" = some "10.0.0.1:443" ∧
    is_private_ip_str (hostPortion "10.0.0.1:443") = true ∧
    (canary env0 [] [] 0 "tk"
      { req0 with headers := [("Host", "10.0.0.1:443")] }).event.suspicious
      = true :=
  ⟨by decide, by decide,
   C2_host_private_check.1 env0 [] [] 0 "tk"
     { req0 with headers := [("Host", "10.0.0.1:443")] } "10.0.0.1:443"
     (by decide) (by decide)⟩

/-- For an ascending timestamp list, trimming the prefix of entries below
`ws` removes exactly the entries below `ws`. -/
theorem dropWhile_lt_eq_filter (ws : ℤ) (l : List ℤ)
    (hl : l.Pairwise (· ≤ ·)) :
    l.dropWhile (fun t => decide (t < ws))
      = l.filter (fun t => decide (ws ≤ t)) := by
  induction l with
  | nil => rfl
  | cons a l ih =>
    rw [List.pairwise_cons] at hl
    by_cases ha : a < ws
    · have h1 := ih hl.2
      simp only [List.dropWhile_cons, List.filter_cons, decide_eq_true_eq]
      rw [if_pos ha, if_neg (not_le.mpr ha)]
      exact h1
    · have hws : ws ≤ a := not_lt.mp ha
      have hall : ∀ x ∈ l, ws ≤ x := fun x hx => le_trans hws (hl.1 x hx)
      simp only [List.dropWhile_cons, List.filter_cons, decide_eq_true_eq]
      rw [if_neg ha, if_pos hws]
      have : l.filter (fun t => decide (ws ≤ t)) = l :=
        List.filter_eq_self.mpr (fun x hx => by simpa using hall x hx)
      rw [this]

/-- C3: each rate-limit call removes exactly the timestamps strictly older
than `now - RATE_LIMIT_WINDOW` from the (ascending) sequence, appends `now`,
and allows iff the new length is within `RATE_LIMIT_MAX`; with the default
window 60 and limit 20, twenty calls at seconds 0..19 are all allowed, a
21st call at second 20 is denied, and a call at second 81 (61 seconds after
the last) is allowed again. -/
theorem C3_rate_limiter_window :
    (∀ (arr : List ℤ) (now : ℤ), arr.Pairwise (· ≤ ·) →
        (record_and_check_rate arr now).fst
          = arr.filter (fun t => decide (now - RATE_LIMIT_WINDOW ≤ t)) ++ [now]
        ∧ ((record_and_check_rate arr now).snd = true ↔
            (arr.filter (fun t => decide (now - RATE_LIMIT_WINDOW ≤ t))).length + 1
              ≤ RATE_LIMIT_MAX))
    ∧ (runRate [0, 1, 2, 3, 4, 5, 6, 7, 8, 9, 10, 11, 12, 13, 14, 15, 16, 17,
        18, 19]).snd = List.replicate 20 true
    ∧ (runRate [0, 1, 2, 3, 4, 5, 6, 7, 8, 9, 10, 11, 12, 13, 14, 15, 16, 17,
        18, 19, 20]).snd = List.replicate 20 true ++ [false]
    ∧ (record_and_check_rate
        (runRate [0, 1, 2, 3, 4, 5, 6, 7, 8, 9, 10, 11, 12, 13, 14, 15, 16,
          17, 18, 19, 20]).fst 81).snd = true := by
  refine ⟨?_, by decide, by decide, by decide⟩
  intro arr now hsorted
  have htrim := dropWhile_lt_eq_filter (now - RATE_LIMIT_WINDOW) arr hsorted
  constructor
  · show arr.dropWhile (fun t => decide (t < now - RATE_LIMIT_WINDOW)) ++ [now]
        = arr.filter (fun t => decide (now - RATE_LIMIT_WINDOW ≤ t)) ++ [now]
    rw [htrim]
  · show decide ((arr.dropWhile (fun t => decide (t < now - RATE_LIMIT_WINDOW))
        ++ [now]).length ≤ RATE_LIMIT_MAX) = true ↔ _
    rw [htrim]
    simp [List.length_append]

/-- C3 witness: from state [0, 50] a call at 70 drops the expired entry 0,
keeps 50, appends 70, and is allowed. -/
theorem C3_witness :
    (record_and_check_rate [0, 50] 70).fst
      = List.filter (fun t => decide ((70 : ℤ) - RATE_LIMIT_WINDOW ≤ t)) [0, 50]
        ++ [70]
    ∧ ((record_and_check_rate [0, 50] 70).snd = true ↔
        (List.filter (fun t => decide ((70 : ℤ) - RATE_LIMIT_WINDOW ≤ t))
          [0, 50]).length + 1 ≤ RATE_LIMIT_MAX) :=
  C3_rate_limiter_window.1 [0, 50] 70 (by decide)

/-- C4: a rate-limit denial never blocks or rejects a request: for every
allowed-method request the dispatcher returns 200 and persists exactly one
Event, and a denial forces the Event's suspicious flag to true; concretely,
25 requests on one token at the same second all get persisted and the last
five are suspicious purely from rate denial (the peer 8.8.8.8 is public). -/
theorem C4_denial_never_blocks :
    (∀ env tokens events rateArr now tok req,
        canaryMethods.contains req.method = true →
        (dispatchCanary env tokens events rateArr now tok req).fst = 200
        ∧ (dispatchCanary env tokens events rateArr now tok req).snd.fst
            = events ++ [(canary env tokens rateArr now tok req).event]
        ∧ ((canary env tokens rateArr now tok req).rateOk = false →
            (canary env tokens rateArr now tok req).event.suspicious = true))
    ∧ (runCanary env0 [] "tk" req0 (List.replicate 25 0)).snd.length = 25
    ∧ ((runCanary env0 [] "tk" req0 (List.replicate 25 0)).snd.map
        (fun e => e.suspicious)).drop 20 = List.replicate 5 true
    ∧ ((runCanary env0 [] "tk" req0 (List.replicate 25 0)).snd.map
        (fun e => e.suspicious)).take 20 = List.replicate 20 false := by
  refine ⟨?_, by decide, by decide, by decide⟩
  intro env tokens events rateArr now tok req hm
  refine ⟨?_, ?_, ?_⟩
  · unfold dispatchCanary
    rw [hm]
    simp
  · unfold dispatchCanary
    rw [hm]
    simp
  · intro hok
    rw [canary_event_suspicious]
    rw [canary_rateOk] at hok
    rw [hok]
    simp

/-- C4 witness: a GET request is dispatched with 200, appends its Event, and
a denial would force suspicion. -/
theorem C4_witness :
    (dispatchCanary env0 [] [] [] 0 "tk" req0).fst = 200
    ∧ (dispatchCanary env0 [] [] [] 0 "tk" req0).snd.fst
        = [] ++ [(canary env0 [] [] 0 "tk" req0).event]
    ∧ ((canary env0 [] [] 0 "tk" req0).rateOk = false →
        (canary env0 [] [] 0 "tk" req0).event.suspicious = true) :=
  C4_denial_never_blocks.1 env0 [] [] [] 0 "tk" req0 (by decide)

/-- C5: the stored body preview is the permissive decoding of at most the
first 4096 body byt(es), truncated to at most 2000 characters: its length
never exceeds 2000, it depends only on the first 4096 bytes of the body, an
invalid byte decodes to U+FFFD instead of failing, and a 10000-byte body
stores at most 2000 characters. -/
theorem C5_body_preview_bounded :
    (∀ env tokens rateArr now tok req,
        (canary env tokens rateArr now tok req).event.bodyPreview.length ≤ 2000)
    ∧ (∀ env tokens rateArr now tok (req : RequestData) (b b' : List Nat),
        b.take 4096 = b'.take 4096 →
        (canary env tokens rateArr now tok { req with body := b }).event.bodyPreview
          = (canary env tokens rateArr now tok
              { req with body := b' }).event.bodyPreview)
    ∧ utf8DecodeReplace [0xFF, 0x41] = [replChar, 'A']
    ∧ (canary env0 [] [] 0 "tk"
        { req0 with body := List.replicate 10000 65 }).event.bodyPreview.length
        ≤ 2000 := by
  have hlen : ∀ env tokens rateArr now tok req,
      (canary env tokens rateArr now tok req).event.bodyPreview.length ≤ 2000 := by
    intro env tokens rateArr now tok req
    rw [canary_event_bodyPreview]
    show ((if (req.body.take 4096).isEmpty then []
           else utf8DecodeReplace (req.body.take 4096)).take 2000).length ≤ 2000
    rw [List.length_take]
    omega
  refine ⟨hlen, ?_, by decide, hlen env0 [] [] 0 "tk" _⟩
  intro env tokens rateArr now tok req b b' hb
  rw [canary_event_bodyPreview, canary_event_bodyPreview]
  show String.mk ((if (b.take 4096).isEmpty then []
        else utf8DecodeReplace (b.take 4096)).take 2000)
      = String.mk ((if (b'.take 4096).isEmpty then []
        else utf8DecodeReplace (b'.take 4096)).take 2000)
  rw [hb]

/-- C5 witness: two 4097-byte bodies agreeing on their first 4096 bytes
produce the same stored preview. -/
theorem C5_witness :
    (List.replicate 4096 65 ++ [66]).take 4096
      = (List.replicate 4096 65 ++ [67]).take 4096
    ∧ (canary env0 [] [] 0 "tk"
        { req0 with body := List.replicate 4096 65 ++ [66] }).event.bodyPreview
      = (canary env0 [] [] 0 "tk"
        { req0 with body := List.replicate 4096 65 ++ [67] }).event.bodyPreview := by
  have htake : ∀ x : Nat, (List.replicate 4096 (65 : Nat) ++ [x]).take 4096
      = List.replicate 4096 (65 : Nat) := by
    intro x
    have h1 : (List.replicate 4096 (65 : Nat)).length = 4096 :=
      List.length_replicate _ _
    nth_rewrite 1 [← h1]
    rw [List.take_left]
  exact ⟨(htake 66).trans (htake 67).symm,
    C5_body_preview_bounded.2.1 env0 [] [] 0 "tk" req0
      (List.replicate 4096 65 ++ [66]) (List.replicate 4096 65 ++ [67])
      ((htake 66).trans (htake 67).symm)⟩

/-- C6: the Event's remote address prefers the trimmed first comma-separated
entry of `X-Forwarded-For` when the header is present and that entry is
non-empty, and falls back to the transport peer otherwise; concretely,
`X-Forwarded-For: 203.0.113.5, 10.0.0.1` with peer 192.0.2.9 records
203.0.113.5. -/
theorem C6_xff_precedence :
    (∀ peer, deriveRemoteAddr none peer = peer)
    ∧ (∀ s peer, (xffFirst s).isEmpty = false →
        deriveRemoteAddr (some s) peer = some (xffFirst s))
    ∧ (∀ s peer, (xffFirst s).isEmpty = true →
        deriveRemoteAddr (some s) peer = peer)
    ∧ (canary env0 [] [] 0 "tk"
        { req0 with headers := [("X-Forwarded-For", "203.0.113.5, 10.0.0.1")],
                    peer := some "192.0.2.9" }).event.remoteAddr
        = some "203.0.113.5" := by
  refine ⟨fun peer => rfl, ?_, ?_, by decide⟩
  · intro s peer h
    rcases hs : s.isEmpty with _ | _
    · simp [deriveRemoteAddr, hs, h]
    · have h0 : s = "" := (String.isEmpty_iff _).mp hs
      subst h0
      exact absurd h (by decide)
  · intro s peer h
    rcases hs : s.isEmpty with _ | _
    · simp [deriveRemoteAddr, hs, h]
    · simp [deriveRemoteAddr, hs]

/-- C6 witness: the concrete header value from the spec yields its first
entry, trimmed. -/
theorem C6_witness :
    (xffFirst "203.0.113.5, 10.0.0.1").isEmpty = false ∧
    deriveRemoteAddr (some "203.0.113.5, 10.0.0.1") (some "192.0.2.9")
      = some (xffFirst "203.0.113.5, 10.0.0.1") :=
  ⟨by decide,
   C6_xff_precedence.2.1 "203.0.113.5, 10.0.0.1" (some "192.0.2.9") (by decide)⟩

/-- C7 counterexample: the route's method list does not cover every HTTP
method — a TRACE request is rejected by routing with 405, no Event is
persisted and the view never runs, contradicting the claim that the endpoint
accepts any method with 200. -/
theorem C7_counterexample :
    (dispatchCanary env0 [] [] [] 0 "tk" { req0 with method := "TRACE" }).fst
      = 405
    ∧ (dispatchCanary env0 [] [] [] 0 "tk" { req0 with method := "TRACE" }).snd.fst
      = []
    ∧ canaryMethods.contains "TRACE" = false := by
  refine ⟨by decide, by decide, by decide⟩

/-- C7 (amended): the endpoint accepts exactly
GET/POST/PUT/PATCH/DELETE/HEAD/OPTIONS; for these the view runs and, with
recording succeeding, the response is always 200 "OK" — never 4xx/5xx for
classification, rate-limit or alerting reasons; any other method is rejected
by routing with 405 and records nothing. -/
theorem C7_method_dispatch :
    (∀ env tokens events rateArr now tok req,
        canaryMethods.contains req.method = true →
        (dispatchCanary env tokens events rateArr now tok req).fst = 200
        ∧ (dispatchCanary env tokens events rateArr now tok req).snd.snd
            = some (canary env tokens rateArr now tok req)
        ∧ (canary env tokens rateArr now tok req).response = ("OK", 200))
    ∧ (∀ env tokens events rateArr now tok req,
        canaryMethods.contains req.method = false →
        (dispatchCanary env tokens events rateArr now tok req).fst = 405
        ∧ (dispatchCanary env tokens events rateArr now tok req).snd.fst
            = events) := by
  constructor
  · intro env tokens events rateArr now tok req hm
    unfold dispatchCanary
    rw [hm]
    exact ⟨rfl, rfl, canary_response env tokens rateArr now tok req⟩
  · intro env tokens events rateArr now tok req hm
    unfold dispatchCanary
    rw [hm]
    exact ⟨rfl, rfl⟩

/-- C7 witness: OPTIONS is accepted with 200 "OK"; TRACE is rejected with
405 and persists nothing. -/
theorem C7_witness :
    ((dispatchCanary env0 [] [] [] 0 "tk" { req0 with method := "OPTIONS" }).fst
        = 200
      ∧ (canary env0 [] [] 0 "tk" { req0 with method := "OPTIONS" }).response
        = ("OK", 200))
    ∧ ((dispatchCanary env0 [] [] [] 0 "tk" { req0 with method := "TRACE" }).fst
        = 405
      ∧ (dispatchCanary env0 [] [] [] 0 "tk"
          { req0 with method := "TRACE" }).snd.fst = []) :=
  ⟨⟨(C7_method_dispatch.1 env0 [] [] [] 0 "tk"
       { req0 with method := "OPTIONS" } (by decide)).1,
    (C7_method_dispatch.1 env0 [] [] [] 0 "tk"
       { req0 with method := "OPTIONS" } (by decide)).2.2⟩,
   ⟨(C7_method_dispatch.2 env0 [] [] [] 0 "tk"
       { req0 with method := "TRACE" } (by decide)).1,
    (C7_method_dispatch.2 env0 [] [] [] 0 "tk"
       { req0 with method := "TRACE" } (by decide)).2⟩⟩

/-- The spec's notion of a token that "currently resolves": it exists in the
store, is active, and is non-expired at the current time.  Stated from the
spec's words for comparison with the handler's actual lookup. -/
def specTokenResolves (tokens : List TokenRec) (now : ℤ) (tok : String) : Bool :=
  tokens.any (fun r => r.token = tok && r.active &&
    (match r.expiresAt with
     | none => true
     | some e => decide (now < e)))

/-- A stored token row that is inactive (and so does not "resolve" in the
spec's sense) yet exists under the handler's lookup. -/
def staleTok : TokenRec :=
  { token := "tk", owner := some "alice", active := false, expiresAt := none }

/-- C8 counterexample: with an inactive stored token the handler's lookup
still reports `token_exists = true`, so the lookup tests bare existence, not
the claimed "active, non-expired" resolution. -/
theorem C8_counterexample :
    specTokenResolves [staleTok] 0 "tk" = false ∧
    (canary env0 [staleTok] [] 0 "tk" req0).payload.tokenExists = true ∧
    (canary env0 [staleTok] [] 0 "tk" req0).payload.tokenOwner = some "alice" := by
  refine ⟨by decide, by decide, by decide⟩

/-- C8 (amended): the handler's token lookup tests only whether the token
string exists in the store — expired or inactive rows still count — and it
is used only to enrich the alert payload (token_exists, token_owner): the
persisted Event, the rate outcome and the response are identical for any two
token stores. -/
theorem C8_lookup_enrichment_only :
    (∀ env tokens rateArr now tok req,
        (canary env tokens rateArr now tok req).payload.tokenExists
          = (tokens.find? (fun r => r.token = tok)).isSome
        ∧ (canary env tokens rateArr now tok req).payload.tokenOwner
          = (match tokens.find? (fun r => r.token = tok) with
             | some r => r.owner
             | none => none))
    ∧ (∀ env (tokens tokens' : List TokenRec) rateArr now tok req,
        (canary env tokens rateArr now tok req).event
          = (canary env tokens' rateArr now tok req).event
        ∧ (canary env tokens rateArr now tok req).response
          = (canary env tokens' rateArr now tok req).response
        ∧ (canary env tokens rateArr now tok req).rateOk
          = (canary env tokens' rateArr now tok req).rateOk) := by
  constructor
  · intro env tokens rateArr now tok req
    exact ⟨canary_payload_tokenExists env tokens rateArr now tok req,
           canary_payload_tokenOwner env tokens rateArr now tok req⟩
  · intro env tokens tokens' rateArr now tok req
    exact ⟨rfl, rfl, rfl⟩

/-- C9: every best-effort sub-step swallows its own failures: reverse DNS
yields `none` on falsy input or any resolution failure; the webhook returns
false when unconfigured, on an exception, or on a non-2xx status; the email
returns false when the SMTP host or recipient is unconfigured or on an SMTP
exception; and the email attempt in the alert worker is independent of the
webhook configuration and outcome. -/
theorem C9_failures_swallowed :
    (∀ env, enrich_remote_host env none = none)
    ∧ (∀ env s, env.dns s = .error () → enrich_remote_host env (some s) = none)
    ∧ (∀ env p, truthy env.webhookUrl = false → send_webhook env p = false)
    ∧ (∀ env p, env.webhookPost = .error () → send_webhook env p = false)
    ∧ (∀ env p code, env.webhookPost = .ok code → code < 200 ∨ 300 ≤ code →
        send_webhook env p = false)
    ∧ (∀ env t, truthy env.smtpHost = false ∨ truthy t = false →
        send_email env t = false)
    ∧ (∀ env t, env.smtpSend = .error () → send_email env t = false)
    ∧ (∀ env p u post,
        (alert_worker { env with webhookUrl := u, webhookPost := post } p).snd
          = (alert_worker env p).snd) := by
  refine ⟨fun env => rfl, ?_, ?_, ?_, ?_, ?_, ?_, ?_⟩
  · intro env s h
    simp [enrich_remote_host, h]
  · intro env p h
    simp [send_webhook, h]
  · intro env p h
    simp [send_webhook, h]
  · intro env p code hpost hcode
    simp only [send_webhook, hpost]
    rcases hcode with hc | hc
    · simp [Nat.not_le_of_lt hc]
    · simp [Nat.not_lt_of_le hc]
  · intro env t h
    rcases h with h | h <;> simp [send_email, h]
  · intro env t h
    simp [send_email, h]
  · intro env p u post
    rfl

/-- An environment with a configured webhook whose delivery returns 404. -/
def env404 : Env :=
  { env0 with webhookUrl := some "http://example.com/hook", webhookPost := .ok 404 }

/-- C9 witness: in the all-failing unconfigured environment resolution
yields `none`, and a configured webhook receiving a 404 reports false. -/
theorem C9_witness :
    enrich_remote_host env0 (some "8.8.8.8") = none
    ∧ send_webhook env404 (canary env0 [] [] 0 "tk" req0).payload = false :=
  ⟨C9_failures_swallowed.2.1 env0 "8.8.8.8" rfl,
   C9_failures_swallowed.2.2.2.2.1 env404
     (canary env0 [] [] 0 "tk" req0).payload 404 rfl (Or.inr (by decide))⟩

/-- `true` exactly on a parse result of IPv6 version. -/
def isV6opt : Option IPAddr → Bool
  | some (.v6 _) => true
  | _ => false

/-- C10: the private/metadata classification is IPv4-only: any string that
parses as an IPv6 address — including ::1, fe80::1 and the IPv4-mapped
::ffff:10.0.0.1 — is never private and never suspicious by address, because
every configured range is an IPv4 network and the metadata set holds only
IPv4 literals. -/
theorem C10_ipv6_never_private :
    (∀ s n, ip_address s = some (.v6 n) →
        is_private_ip_str s = false ∧ addrSuspicious s = false)
    ∧ ip_address "::1" = some (.v6 1)
    ∧ ip_address "fe80::1" = some (.v6 (0xFE80 * 2 ^ 112 + 1))
    ∧ ip_address "::ffff:10.0.0.1" = some (.v6 (0xFFFF * 2 ^ 32 + 0x0A000001))
    ∧ is_private_ip_str "::1" = false
    ∧ is_private_ip_str "fe80::1" = false
    ∧ is_private_ip_str "::ffff:10.0.0.1" = false := by
  refine ⟨?_, by decide, by decide, by decide, by decide, by decide, by decide⟩
  intro s n h
  have hpriv : is_private_ip_str s = false := by
    unfold is_private_ip_str
    rw [h]
    simp [PRIV_RANGES, memNet]
  refine ⟨hpriv, ?_⟩
  have hmeta : inMetadataIPs s = false := by
    rcases hc : inMetadataIPs s with _ | _
    · rfl
    · exfalso
      have hv6 : isV6opt (ip_address s) = true := by rw [h]; rfl
      rcases (mem_metadata_iff s).mp hc with rfl | rfl | rfl <;>
        exact absurd hv6 (by decide)
  simp [addrSuspicious, hpriv, hmeta]

/-- C10 witness: the loopback ::1 parses as IPv6 and is classified neither
private nor suspicious. -/
theorem C10_witness :
    is_private_ip_str "::1" = false ∧ addrSuspicious "::1" = false :=
  C10_ipv6_never_private.1 "::1" 1 (by decide)

end SSRFCanary
